import Mathlib

/-!
Shallow embedding of the Substrate bridge runtime module
(`src/runtime/src/bridge.rs` of POC-polkadai-bridge) and verification of the
specification claims about it.

Modelling conventions:
* Storage maps are total functions into `Option`; a read through the storage
  getter applies the Substrate default value for the type, exactly as
  `StorageMap::get` does for a missing key.
* Machine integers: the proposal id counter is a 32-bit value; its
  `checked_add` is modelled on `Nat` with the explicit bound `2^32`.
  All other arithmetic in the module cannot overflow on the claims'
  domains and is modelled on `Nat`.
* Cryptographic hashes (`using_encoded(Hashing::hash)`) are modelled by an
  injective constructor per call site (the standard collision-free model):
  `HashV.setTransferH`, `HashV.addH`, `HashV.removeH`, `HashV.pauseH`,
  `HashV.resumeH`; externally supplied message ids are `HashV.raw`.
* A dispatchable `fn f(origin, ...) -> Result` that mutates storage is a
  function `... → State → Res` where `Res` carries both the Rust `Result`
  and the storage as mutated by the body; an early `return Err` (from
  `ensure!` or `?`) keeps the writes performed before it, exactly as the
  Rust body does to its storage argument.
* The token module (`crate::token`) is not under `src/`.  Its four
  primitives are modelled from the spec, see the `token` namespace.
-/

/-! ## Basic types -/

abbrev AccountId := Nat
abbrev H160 := Nat
abbrev TokenBalance := Nat
abbrev ProposalId := Nat

/-- Status enumeration from `crate::types` (not under `src/`).
Modelled from the spec: variants are the ones used by `bridge.rs` (§3 of the
spec: transfer statuses `Deposit | Withdraw | Pending | Approved | Confirmed |
Canceled`, validator statuses `AddValidator | RemoveValidator | ... |
Confirmed | Revoked`, bridge statuses `PauseTheBridge | ResumeTheBridge`).
The storage default is `Revoked`: the repository's own test
`remove_validator_should_work` (bridge.rs:811) reads the `ValidatorHistory`
entry after `_remove_validator` has purged it and expects `Status::Revoked`,
so `Default::default()` of `Status` is `Revoked`. -/
inductive Status where
  | Revoked
  | Pending
  | Deposit
  | Withdraw
  | Approved
  | Canceled
  | Confirmed
  | AddValidator
  | RemoveValidator
  | PauseTheBridge
  | ResumeTheBridge
deriving DecidableEq, Repr

/-- Proposal kind tag from `crate::types`; the three values used by
`bridge.rs`. -/
inductive Kind where
  | Transfer
  | Validator
  | Bridge
deriving DecidableEq, Repr

/-- Hash values.  Each hashing call site of `bridge.rs` gets its own
injective constructor (collision-free model of the runtime hash):
`("add", address)`, `("remove", address)`, `("pause", 0)`, `("resume", 0)`,
`(from, to, amount, 0)`; `raw` covers externally supplied message ids.
The zero hash (`Default::default()` of `T::Hash`) is modelled as `raw 0`. -/
inductive HashV where
  | raw (n : Nat)
  | setTransferH (fromAcc : AccountId) (toAddr : H160) (amount : TokenBalance)
  | addH (address : AccountId)
  | removeH (address : AccountId)
  | pauseH
  | resumeH
deriving DecidableEq, Repr

/-- `TransferMessage<AccountId, Hash>` from `crate::types`, field shape as
used by `bridge.rs` (construction sites at bridge.rs:74 and bridge.rs:97). -/
structure TransferMessage where
  message_id : HashV
  eth_address : H160
  substrate_address : AccountId
  amount : TokenBalance
  status : Status
  action : Status
deriving DecidableEq, Repr

/-- `ValidatorMessage<AccountId, Hash>` (construction sites bridge.rs:135,
bridge.rs:159). -/
structure ValidatorMessage where
  message_id : HashV
  account : AccountId
  action : Status
  status : Status
deriving DecidableEq, Repr

/-- `BridgeMessage<AccountId, Hash>` (construction sites bridge.rs:182,
bridge.rs:204). -/
structure BridgeMessage where
  message_id : HashV
  account : AccountId
  action : Status
  status : Status
deriving DecidableEq, Repr

/-- `BridgeTransfer<Hash>` — a proposal record (bridge.rs:426). `open` is a
Lean keyword, so the field is named `isOpen`. -/
structure BridgeTransfer where
  transfer_id : ProposalId
  message_id : HashV
  isOpen : Bool
  votes : Nat
  kind : Kind
deriving DecidableEq, Repr

/-- Storage default of `TransferMessage` (all fields defaulted; `Status`
defaults to `Revoked`, see `Status`). -/
def defaultTransferMessage : TransferMessage :=
  { message_id := HashV.raw 0, eth_address := 0, substrate_address := 0,
    amount := 0, status := Status.Revoked, action := Status.Revoked }

/-- Storage default of `ValidatorMessage`. -/
def defaultValidatorMessage : ValidatorMessage :=
  { message_id := HashV.raw 0, account := 0,
    action := Status.Revoked, status := Status.Revoked }

/-- Storage default of `BridgeMessage`. -/
def defaultBridgeMessage : BridgeMessage :=
  { message_id := HashV.raw 0, account := 0,
    action := Status.Revoked, status := Status.Revoked }

/-- Storage default of `BridgeTransfer`: numeric fields 0, `open` false,
votes 0.  (The default `kind` is never observable: `_sign` rejects a default
proposal with the not-open error before reading `kind`.) -/
def defaultBridgeTransfer : BridgeTransfer :=
  { transfer_id := 0, message_id := HashV.raw 0, isOpen := false,
    votes := 0, kind := Kind.Transfer }

/-! ## Token ledger state (external collaborator)

Modelled from the spec: the token module `crate::token` is not under `src/`.
Spec §6 specifies its interface contract:
`lock(account, amount)` encumbers `amount` of the account's available
balance and fails if the available balance (free minus already locked) is
insufficient; `unlock(account, amount)` releases previously locked funds and
fails if the locked balance is insufficient; `mint` increases balance and
total supply; `burn` decreases them and fails if the balance is
insufficient.  The repository tests confirm that `balance_of` includes
locked funds (bridge.rs:718-719: after locking 500, `locked = 500` and
`balance_of = 1000`). -/
structure TokenState where
  free : AccountId → TokenBalance
  locked : AccountId → TokenBalance
  totalSupply : TokenBalance

/-! ## Bridge storage state -/

/-- Pointwise update of a map modelled as a function into `Option`. -/
def mapInsert {α β : Type} [DecidableEq α] (f : α → Option β) (k : α) (v : β) :
    α → Option β :=
  fun x => if x = k then some v else f x

/-- Pointwise removal. -/
def mapRemove {α β : Type} [DecidableEq α] (f : α → Option β) (k : α) :
    α → Option β :=
  fun x => if x = k then none else f x

/-- The `decl_storage!` block of the bridge module (bridge.rs:37-59) plus the
token ledger of the collaborating token module. -/
structure State where
  token : TokenState
  bridgeIsOperational : Bool
  bridgeMessages : HashV → Option BridgeMessage
  bridgeTransfers : ProposalId → Option BridgeTransfer
  bridgeTransfersCount : ProposalId
  transferMessages : HashV → Option TransferMessage
  transferIdMap : HashV → Option ProposalId
  messageIdMap : ProposalId → Option HashV
  validatorsCount : Nat
  validatorHistoryMap : HashV → Option ValidatorMessage
  validators : Finset AccountId

/-- Getter `transfers` (`BridgeTransfers::get`). -/
def transfers (s : State) (id : ProposalId) : BridgeTransfer :=
  (s.bridgeTransfers id).getD defaultBridgeTransfer

/-- Getter `messages` (`TransferMessages::get`). -/
def messages (s : State) (h : HashV) : TransferMessage :=
  (s.transferMessages h).getD defaultTransferMessage

/-- Getter `bridge_messages` (`BridgeMessages::get`). -/
def bridge_messages (s : State) (h : HashV) : BridgeMessage :=
  (s.bridgeMessages h).getD defaultBridgeMessage

/-- Getter `validator_history` (`ValidatorHistory::get`). -/
def validator_history (s : State) (h : HashV) : ValidatorMessage :=
  (s.validatorHistoryMap h).getD defaultValidatorMessage

/-- Getter `transfer_id_by_hash` (`TransferId::get`): the default value of a
`u32` storage item is `0`, so an unindexed hash reads as proposal id 0. -/
def transfer_id_by_hash (s : State) (h : HashV) : ProposalId :=
  (s.transferIdMap h).getD 0

/-! ## Call results

A dispatchable returns `Result` while mutating storage; `Res` pairs the
outcome with the storage as left by the body (on `Err`, with the writes
performed before the failing statement, as in the Rust source). -/

inductive Res where
  | Ok (s : State)
  | Err (e : String) (s : State)

/-- Final storage of a call. -/
def Res.state : Res → State
  | Res.Ok s => s
  | Res.Err _ s => s

/-- Error message of a call, if any. -/
def Res.errMsg : Res → Option String
  | Res.Ok _ => none
  | Res.Err e _ => some e

/-- Whether the call succeeded. -/
def Res.isOk : Res → Bool
  | Res.Ok _ => true
  | Res.Err _ _ => false

/-- Sequencing operator for the Rust `?` propagation. -/
def Res.andThen (r : Res) (f : State → Res) : Res :=
  match r with
  | Res.Ok s => f s
  | Res.Err e s => Res.Err e s

/-! ## Error strings (verbatim from the source; token strings modelled) -/

def gateErr : String := "Bridge is not operational"
def gateAlreadyErr : String := "Bridge is not operational already"
def onlyValidatorsErr : String := "Only validators can call this function"
def notOpenErr : String := "This transfer is not open"
def alreadyOpenErr : String := "This transfer already open"
def overflowErr : String := "Overflow adding a new bridge transfer"
def maxValidatorsErr : String := "Validators maximum reached."
def lastValidatorErr : String := "Can not remove last validator."
def mustBeApprovedErr : String := "This transfer must be approved first."
def depositBadStatusErr : String := "Tried to deposit with non-supported status"
def withdrawBadStatusErr : String := "Tried to withdraw with non-supported status"
def transferBadStatusErr : String := "Tried to execute transfer with non-supported status"
def addValidatorBadStatusErr : String := "Tried to add validator with non-supported status"
def removeValidatorBadStatusErr : String := "Tried to remove validator with non-supported status"
def manageValidatorBadStatusErr : String := "Tried to manage validator with non-supported status"
def pauseBadStatusErr : String := "Tried to pause the bridge with non-supported status"
def resumeBadStatusErr : String := "Tried to resume the bridge with non-supported status"
def manageBridgeBadStatusErr : String := "Tried to manage bridge with non-supported status"
/-- Modelled from the spec: token `lock` failure (insufficient available
balance), spec §6. -/
def lockInsufficientErr : String := "Token: insufficient available balance to lock"
/-- Modelled from the spec: token `unlock` failure (insufficient locked
balance), spec §6. -/
def unlockInsufficientErr : String := "Token: insufficient locked balance to unlock"
/-- Modelled from the spec: token `burn` failure (insufficient balance),
spec §6. -/
def burnInsufficientErr : String := "Token: insufficient balance to burn"

/-! ## Token module operations (modelled from the spec, see `TokenState`) -/

/-- Pointwise update of a balance function. -/
def updFun (f : AccountId → TokenBalance) (k : AccountId) (v : TokenBalance) :
    AccountId → TokenBalance :=
  fun x => if x = k then v else f x

namespace token

/-- Modelled from the spec: `token::Module::lock` — encumbers `amount` of
`account`'s available (free minus locked) balance; fails when insufficient. -/
def lock (account : AccountId) (amount : TokenBalance) (s : State) : Res :=
  if s.token.locked account + amount ≤ s.token.free account then
    Res.Ok { s with token := { s.token with
      locked := updFun s.token.locked account (s.token.locked account + amount) } }
  else Res.Err lockInsufficientErr s

/-- Modelled from the spec: `token::Module::unlock` — releases previously
locked funds; fails when the locked balance is insufficient. -/
def unlock (account : AccountId) (amount : TokenBalance) (s : State) : Res :=
  if amount ≤ s.token.locked account then
    Res.Ok { s with token := { s.token with
      locked := updFun s.token.locked account (s.token.locked account - amount) } }
  else Res.Err unlockInsufficientErr s

/-- Modelled from the spec: `token::Module::_mint` — increases the balance
and the total supply. -/
def _mint (account : AccountId) (amount : TokenBalance) (s : State) : Res :=
  Res.Ok { s with token := { s.token with
    free := updFun s.token.free account (s.token.free account + amount),
    totalSupply := s.token.totalSupply + amount } }

/-- Modelled from the spec: `token::Module::_burn` — decreases the balance
and the total supply; fails when the balance is insufficient. -/
def _burn (account : AccountId) (amount : TokenBalance) (s : State) : Res :=
  if amount ≤ s.token.free account then
    Res.Ok { s with token := { s.token with
      free := updFun s.token.free account (s.token.free account - amount),
      totalSupply := s.token.totalSupply - amount } }
  else Res.Err burnInsufficientErr s

end token

/-! ## Bridge module internals (`impl<T: Trait> Module<T>`) -/

/-- `check_validator` (bridge.rs:473-478). -/
def check_validator (validator : AccountId) (s : State) : Res :=
  if validator ∈ s.validators then Res.Ok s else Res.Err onlyValidatorsErr s

/-- Quorum check `votes_are_enough` (bridge.rs:331-334).  The source computes
`votes as f64 / validators_count as f64 >= 0.51` in IEEE-754 double
precision.  This is modelled by its exact integer characterisation:

* the literal `0.51` parses to the double nearest to 51/100, namely
  `r = 4593671619917906 / 2^53` (since `51 * 2^53 / 100 = 4593671619917905.92`
  rounds up);
* for `votes < count` the exact quotient `q = votes/count` lies in `[0, 1)`;
  values below 1/2 are strictly below `r` after rounding, and for
  `q ∈ [1/2, 1)` the double spacing is `2^-53`, so the correctly rounded
  quotient is `≥ r` exactly when `q ≥ r - 2^-54`, i.e.
  `2^54 * votes ≥ 9187343239835811 * count` (the tie `q = r - 2^-54` would
  need `count` divisible by `2^54`, impossible for a `u32` count, and ties
  round to the even significand `4593671619917906` anyway, so the closed
  inequality is exact);
* for `votes ≥ count ≥ 1` the rounded quotient is `≥ 1 > r` and the
  characterisation is `True`, matching `votes ≥ count`
  (conversion rounding for huge `votes` cannot drop the quotient below 1);
* for `count = 0` the division yields `+inf` (votes > 0, comparison true) or
  `NaN` (votes = 0, comparison false). -/
def votes_are_enough (votes : Nat) (count : Nat) : Bool :=
  if count = 0 then decide (votes ≠ 0)
  else decide (count ≤ votes) ||
    decide (9187343239835811 * count ≤ 18014398509481984 * votes)

/-- Wrapper reading the live validator count, as
`Self::votes_are_enough(transfer.votes)` does via `Self::validators_count()`. -/
def votes_are_enough_in (s : State) (votes : Nat) : Bool :=
  votes_are_enough votes s.validatorsCount

/-- `update_status` (bridge.rs:442-461) never fails; this is its storage
effect. -/
def updateStatusFn (id : HashV) (status : Status) (kind : Kind) (s : State) : State :=
  match kind with
  | Kind.Transfer =>
      { s with transferMessages :=
          mapInsert s.transferMessages id { messages s id with status := status } }
  | Kind.Validator =>
      { s with validatorHistoryMap :=
          mapInsert s.validatorHistoryMap id { validator_history s id with status := status } }
  | Kind.Bridge =>
      { s with bridgeMessages :=
          mapInsert s.bridgeMessages id { bridge_messages s id with status := status } }

/-- `update_status` (bridge.rs:442-461). -/
def update_status (id : HashV) (status : Status) (kind : Kind) (s : State) : Res :=
  Res.Ok (updateStatusFn id status kind s)

/-- The `u32` `checked_add(1)` of the proposal counter (bridge.rs:422-424). -/
def checkedAdd1 (n : Nat) : Option Nat :=
  if n + 1 < 4294967296 then some (n + 1) else none

/-- `create_transfer` (bridge.rs:414-440). -/
def create_transfer (transfer_hash : HashV) (kind : Kind) (s : State) : Res :=
  if (s.transferIdMap transfer_hash).isSome then Res.Err alreadyOpenErr s
  else
    let transfer_id := s.bridgeTransfersCount
    match checkedAdd1 s.bridgeTransfersCount with
    | none => Res.Err overflowErr s
    | some new_bridge_transfers_count =>
      Res.Ok { s with
        bridgeTransfers := mapInsert s.bridgeTransfers transfer_id
          { transfer_id := transfer_id, message_id := transfer_hash,
            isOpen := true, votes := 0, kind := kind },
        bridgeTransfersCount := new_bridge_transfers_count,
        transferIdMap := mapInsert s.transferIdMap transfer_hash transfer_id,
        messageIdMap := mapInsert s.messageIdMap transfer_id transfer_hash }

/-- `get_transfer_id_checked` (bridge.rs:296-302). -/
def get_transfer_id_checked (transfer_hash : HashV) (kind : Kind) (s : State) : Res :=
  if (s.transferIdMap transfer_hash).isSome then Res.Ok s
  else create_transfer transfer_hash kind s

/-- `pause_the_bridge` (bridge.rs:304-307). -/
def pause_the_bridge (message : BridgeMessage) (s : State) : Res :=
  update_status message.message_id Status.Confirmed Kind.Bridge
    { s with bridgeIsOperational := false }

/-- `resume_the_bridge` (bridge.rs:309-312). -/
def resume_the_bridge (message : BridgeMessage) (s : State) : Res :=
  update_status message.message_id Status.Confirmed Kind.Bridge
    { s with bridgeIsOperational := true }

/-- `_add_validator` (bridge.rs:314-320). -/
def _add_validator (info : ValidatorMessage) (s : State) : Res :=
  if s.validatorsCount < 100000 then
    update_status info.message_id Status.Confirmed Kind.Validator
      { s with validators := insert info.account s.validators,
               validatorsCount := s.validatorsCount + 1 }
  else Res.Err maxValidatorsErr s

/-- `_remove_validator` (bridge.rs:322-329). -/
def _remove_validator (info : ValidatorMessage) (s : State) : Res :=
  if 1 < s.validatorsCount then
    Res.Ok { s with validators := s.validators.erase info.account,
                    validatorsCount := s.validatorsCount - 1,
                    validatorHistoryMap := mapRemove s.validatorHistoryMap info.message_id }
  else Res.Err lastValidatorErr s

/-- `lock_for_burn` (bridge.rs:336-341). -/
def lock_for_burn (account : AccountId) (amount : TokenBalance) (s : State) : Res :=
  token.lock account amount s

/-- `execute_burn` (bridge.rs:343-353); the message is re-read from storage. -/
def execute_burn (message_id : HashV) (s : State) : Res :=
  let message := messages s message_id
  (token.unlock message.substrate_address message.amount s).andThen fun s1 =>
    token._burn message.substrate_address message.amount s1

/-- `execute_transfer` (bridge.rs:355-384). -/
def execute_transfer (message : TransferMessage) (s : State) : Res :=
  match message.action with
  | Status.Deposit =>
    match message.status with
    | Status.Approved =>
        (token._mint message.substrate_address message.amount s).andThen fun s1 =>
          update_status message.message_id Status.Confirmed Kind.Transfer s1
    | _ => Res.Err depositBadStatusErr s
  | Status.Withdraw =>
    match message.status with
    | Status.Confirmed => execute_burn message.message_id s
    | Status.Approved =>
        (lock_for_burn message.substrate_address message.amount s).andThen fun s1 =>
          update_status message.message_id Status.Approved Kind.Transfer s1
    | _ => Res.Err withdrawBadStatusErr s
  | _ => Res.Err transferBadStatusErr s

/-- `manage_validator` (bridge.rs:386-398). -/
def manage_validator (message : ValidatorMessage) (s : State) : Res :=
  match message.action with
  | Status.AddValidator =>
    match message.status with
    | Status.Approved => _add_validator message s
    | _ => Res.Err addValidatorBadStatusErr s
  | Status.RemoveValidator =>
    match message.status with
    | Status.Approved => _remove_validator message s
    | _ => Res.Err removeValidatorBadStatusErr s
  | _ => Res.Err manageValidatorBadStatusErr s

/-- `manage_bridge` (bridge.rs:400-412). -/
def manage_bridge (message : BridgeMessage) (s : State) : Res :=
  match message.action with
  | Status.PauseTheBridge =>
    match message.status with
    | Status.Approved => pause_the_bridge message s
    | _ => Res.Err pauseBadStatusErr s
  | Status.ResumeTheBridge =>
    match message.status with
    | Status.Approved => resume_the_bridge message s
    | _ => Res.Err resumeBadStatusErr s
  | _ => Res.Err manageBridgeBadStatusErr s

/-- The quorum-branch local status adjustment of `_sign` (bridge.rs:265-272):
unless the transfer message's status is already `Confirmed`, the local copy
of the message matching the proposal kind is set to `Approved`. -/
def signAdjust (kind : Kind) (message : TransferMessage)
    (validator_message : ValidatorMessage) (bridge_message : BridgeMessage) :
    TransferMessage × ValidatorMessage × BridgeMessage :=
  match message.status with
  | Status.Confirmed => (message, validator_message, bridge_message)
  | _ =>
    match kind with
    | Kind.Transfer => ({ message with status := Status.Approved },
        validator_message, bridge_message)
    | Kind.Validator => (message,
        { validator_message with status := Status.Approved }, bridge_message)
    | Kind.Bridge => (message, validator_message,
        { bridge_message with status := Status.Approved })

/-- `_sign` (bridge.rs:255-293), the voting engine. -/
def _sign (transfer_id : ProposalId) (s : State) : Res :=
  let transfer := transfers s transfer_id
  let message := messages s transfer.message_id
  let validator_message := validator_history s transfer.message_id
  let bridge_message := bridge_messages s transfer.message_id
  if transfer.isOpen = false then Res.Err notOpenErr s
  else
    let votes := transfer.votes + 1
    if votes_are_enough_in s votes then
      let adjusted := signAdjust transfer.kind message validator_message bridge_message
      (match transfer.kind with
       | Kind.Transfer => execute_transfer adjusted.1 s
       | Kind.Validator => manage_validator adjusted.2.1 s
       | Kind.Bridge => manage_bridge adjusted.2.2 s).andThen fun s1 =>
        let closedTransfer := { transfer with votes := votes, isOpen := false }
        Res.Ok { s1 with bridgeTransfers := mapInsert s1.bridgeTransfers transfer_id closedTransfer }
    else
      (match message.status with
       | Status.Confirmed => Res.Ok s
       | _ => update_status transfer.message_id Status.Pending transfer.kind s).andThen
        fun s1 =>
          let votedTransfer := { transfer with votes := votes }
          Res.Ok { s1 with bridgeTransfers := mapInsert s1.bridgeTransfers transfer_id votedTransfer }

/-- `reopen_for_burn_confirmation` (bridge.rs:462-472). -/
def reopen_for_burn_confirmation (message_id : HashV) (s : State) : Res :=
  let message := messages s message_id
  let transfer_id := transfer_id_by_hash s message_id
  let transfer := transfers s transfer_id
  if transfer.isOpen = false ∧ message.status = Status.Confirmed then
    let reopened := { transfer with votes := 0, isOpen := true }
    Res.Ok { s with bridgeTransfers := mapInsert s.bridgeTransfers transfer_id reopened }
  else Res.Ok s

/-! ## Dispatchable entry points (`decl_module!` block) -/

/-- `set_transfer` (bridge.rs:67-87); `origin` is the already-authenticated
signer. -/
def set_transfer (origin : AccountId) (toAddr : H160) (amount : TokenBalance)
    (s : State) : Res :=
  if s.bridgeIsOperational = false then Res.Err gateErr s
  else
    let transfer_hash := HashV.setTransferH origin toAddr amount
    let message : TransferMessage :=
      { message_id := transfer_hash, eth_address := toAddr,
        substrate_address := origin, amount := amount,
        status := Status.Withdraw, action := Status.Withdraw }
    (get_transfer_id_checked transfer_hash Kind.Transfer s).andThen fun s1 =>
      Res.Ok { s1 with transferMessages := mapInsert s1.transferMessages transfer_hash message }

/-- `multi_signed_mint` (bridge.rs:90-113).  Note the source inserts the
transfer message before `get_transfer_id_checked`. -/
def multi_signed_mint (origin : AccountId) (message_id : HashV)
    (fromAddr : H160) (toAcc : AccountId) (amount : TokenBalance) (s : State) : Res :=
  if s.bridgeIsOperational = false then Res.Err gateErr s
  else
    (check_validator origin s).andThen fun s1 =>
      (if (s1.transferMessages message_id).isSome then Res.Ok s1
       else
        let message : TransferMessage :=
          { message_id := message_id, eth_address := fromAddr,
            substrate_address := toAcc, amount := amount,
            status := Status.Deposit, action := Status.Deposit }
        get_transfer_id_checked message_id Kind.Transfer
          { s1 with transferMessages :=
              mapInsert s1.transferMessages message_id message }).andThen fun s2 =>
        _sign (transfer_id_by_hash s2 message_id) s2

/-- `approve_transfer` (bridge.rs:116-123). -/
def approve_transfer (origin : AccountId) (message_id : HashV) (s : State) : Res :=
  if s.bridgeIsOperational = false then Res.Err gateErr s
  else
    (check_validator origin s).andThen fun s1 =>
      _sign (transfer_id_by_hash s1 message_id) s1

/-- `add_validator` (bridge.rs:126-147). -/
def add_validator (origin : AccountId) (address : AccountId) (s : State) : Res :=
  if s.bridgeIsOperational = false then Res.Err gateErr s
  else
    (check_validator origin s).andThen fun s1 =>
      if s1.validatorsCount < 100000 then
        let hash := HashV.addH address
        ((if (s1.validatorHistoryMap hash).isSome then Res.Ok s1
          else
            let message : ValidatorMessage :=
              { message_id := hash, account := address,
                action := Status.AddValidator, status := Status.AddValidator }
            get_transfer_id_checked hash Kind.Validator
              { s1 with validatorHistoryMap :=
                  mapInsert s1.validatorHistoryMap hash message }).andThen fun s2 =>
          _sign (transfer_id_by_hash s2 hash) s2)
      else Res.Err maxValidatorsErr s1

/-- `remove_validator` (bridge.rs:149-171). -/
def remove_validator (origin : AccountId) (address : AccountId) (s : State) : Res :=
  if s.bridgeIsOperational = false then Res.Err gateErr s
  else
    (check_validator origin s).andThen fun s1 =>
      if 1 < s1.validatorsCount then
        let hash := HashV.removeH address
        ((if (s1.validatorHistoryMap hash).isSome then Res.Ok s1
          else
            let message : ValidatorMessage :=
              { message_id := hash, account := address,
                action := Status.RemoveValidator, status := Status.RemoveValidator }
            get_transfer_id_checked hash Kind.Validator
              { s1 with validatorHistoryMap :=
                  mapInsert s1.validatorHistoryMap hash message }).andThen fun s2 =>
          _sign (transfer_id_by_hash s2 hash) s2)
      else Res.Err lastValidatorErr s1

/-- `pause_bridge` (bridge.rs:174-194): the validator check comes before the
gate check, and the gate check uses the distinct "already" message. -/
def pause_bridge (origin : AccountId) (s : State) : Res :=
  (check_validator origin s).andThen fun s1 =>
    if s1.bridgeIsOperational = false then Res.Err gateAlreadyErr s1
    else
      let hash := HashV.pauseH
      ((if (s1.bridgeMessages hash).isSome then Res.Ok s1
        else
          let message : BridgeMessage :=
            { message_id := hash, account := origin,
              action := Status.PauseTheBridge, status := Status.PauseTheBridge }
          get_transfer_id_checked hash Kind.Bridge
            { s1 with bridgeMessages :=
                mapInsert s1.bridgeMessages hash message }).andThen fun s2 =>
        _sign (transfer_id_by_hash s2 hash) s2)

/-- `resume_bridge` (bridge.rs:197-216): no gate check at all. -/
def resume_bridge (origin : AccountId) (s : State) : Res :=
  (check_validator origin s).andThen fun s1 =>
    let hash := HashV.resumeH
    ((if (s1.bridgeMessages hash).isSome then Res.Ok s1
      else
        let message : BridgeMessage :=
          { message_id := hash, account := origin,
            action := Status.ResumeTheBridge, status := Status.ResumeTheBridge }
        get_transfer_id_checked hash Kind.Bridge
          { s1 with bridgeMessages :=
              mapInsert s1.bridgeMessages hash message }).andThen fun s2 =>
      _sign (transfer_id_by_hash s2 hash) s2)

/-- `confirm_transfer` (bridge.rs:219-235). -/
def confirm_transfer (origin : AccountId) (message_id : HashV) (s : State) : Res :=
  if s.bridgeIsOperational = false then Res.Err gateErr s
  else
    (check_validator origin s).andThen fun s1 =>
      let id := transfer_id_by_hash s1 message_id
      if (messages s1 message_id).status = Status.Approved ∨
         (messages s1 message_id).status = Status.Confirmed then
        (update_status message_id Status.Confirmed Kind.Transfer s1).andThen fun s2 =>
          (reopen_for_burn_confirmation message_id s2).andThen fun s3 =>
            _sign id s3
      else Res.Err mustBeApprovedErr s1

/-- `cancel_transfer` (bridge.rs:238-250). -/
def cancel_transfer (origin : AccountId) (message_id : HashV) (s : State) : Res :=
  if s.bridgeIsOperational = false then Res.Err gateErr s
  else
    (check_validator origin s).andThen fun s1 =>
      let message := messages s1 message_id
      let message := { message with status := Status.Canceled }
      (token.unlock message.substrate_address message.amount s1).andThen fun s2 =>
        Res.Ok { s2 with transferMessages := mapInsert s2.transferMessages message_id message }

/-! ## Genesis state used by the concrete scenarios

Mirrors `new_test_ext` of the repository's test module: three trusted
validator accounts 1, 2, 3 and `validators_count = 3`. -/

def genesisToken : TokenState :=
  { free := fun _ => 0, locked := fun _ => 0, totalSupply := 0 }

def genesis : State :=
  { token := genesisToken,
    bridgeIsOperational := true,
    bridgeMessages := fun _ => none,
    bridgeTransfers := fun _ => none,
    bridgeTransfersCount := 0,
    transferMessages := fun _ => none,
    transferIdMap := fun _ => none,
    messageIdMap := fun _ => none,
    validatorsCount := 3,
    validatorHistoryMap := fun _ => none,
    validators := {1, 2, 3} }

/-! ### Sanity checks of the quorum model (spec Scenario A) -/

example : votes_are_enough 2 3 = true := by decide
example : votes_are_enough 1 3 = false := by decide
example : votes_are_enough 1 2 = false := by decide
example : votes_are_enough 2 2 = true := by decide
example : votes_are_enough 1 1 = true := by decide
example : votes_are_enough 51 100 = true := by decide
example : votes_are_enough 50 100 = false := by decide
example : votes_are_enough 509 1000 = false := by decide
example : votes_are_enough 510 1000 = true := by decide

/-! ## Generic lemmas about the embedding -/

@[simp] theorem Res.andThen_Ok (s : State) (f : State → Res) :
    Res.andThen (Res.Ok s) f = f s := rfl

@[simp] theorem Res.andThen_Err (e : String) (s : State) (f : State → Res) :
    Res.andThen (Res.Err e s) f = Res.Err e s := rfl

@[simp] theorem Res.state_Ok (s : State) : (Res.Ok s).state = s := rfl

@[simp] theorem Res.state_Err (e : String) (s : State) : (Res.Err e s).state = s := rfl

@[simp] theorem Res.errMsg_Ok (s : State) : (Res.Ok s).errMsg = none := rfl

@[simp] theorem Res.errMsg_Err (e : String) (s : State) : (Res.Err e s).errMsg = some e := rfl

@[simp] theorem mapInsert_apply_self {α β : Type} [DecidableEq α]
    (f : α → Option β) (k : α) (v : β) : mapInsert f k v k = some v := by
  simp [mapInsert]

theorem mapInsert_apply_ne {α β : Type} [DecidableEq α]
    (f : α → Option β) (k : α) (v : β) (x : α) (h : x ≠ k) :
    mapInsert f k v x = f x := by
  simp [mapInsert, h]

/-- The side-effect components of the state named by the spec's voting-engine
guarantee: the token ledger, the validator registry (set and count) and the
operational gate. -/
def sideOf (s : State) : TokenState × Finset AccountId × Nat × Bool :=
  (s.token, s.validators, s.validatorsCount, s.bridgeIsOperational)

theorem updateStatusFn_bridgeTransfers (id : HashV) (st : Status) (k : Kind) (s : State) :
    (updateStatusFn id st k s).bridgeTransfers = s.bridgeTransfers := by
  cases k <;> rfl

theorem updateStatusFn_sideOf (id : HashV) (st : Status) (k : Kind) (s : State) :
    sideOf (updateStatusFn id st k s) = sideOf s := by
  cases k <;> rfl

theorem updateStatusFn_transferIdMap (id : HashV) (st : Status) (k : Kind) (s : State) :
    (updateStatusFn id st k s).transferIdMap = s.transferIdMap := by
  cases k <;> rfl

/-- A vote on a closed proposal is rejected before any write (`_sign`
step 1, bridge.rs:261). -/
theorem sign_of_closed (s : State) (tid : ProposalId)
    (h : (transfers s tid).isOpen = false) :
    _sign tid s = Res.Err notOpenErr s := by
  unfold _sign
  simp [h]

/-- A vote on an open proposal that does not reach quorum succeeds: the vote
counter is persisted (with the proposal still open), the only other write is
the `Pending` status update (skipped when the transfer message is already
`Confirmed`), and no side-effect component changes. -/
theorem sign_open_no_quorum (s : State) (tid : ProposalId)
    (ho : (transfers s tid).isOpen = true)
    (hq : votes_are_enough_in s ((transfers s tid).votes + 1) = false) :
    ∃ s1, _sign tid s = Res.Ok { s1 with bridgeTransfers := mapInsert s1.bridgeTransfers tid ({ transfers s tid with votes := (transfers s tid).votes + 1 }) } ∧
      s1.bridgeTransfers = s.bridgeTransfers ∧ sideOf s1 = sideOf s ∧
      ((messages s (transfers s tid).message_id).status ≠ Status.Confirmed →
        s1 = updateStatusFn (transfers s tid).message_id Status.Pending (transfers s tid).kind s) := by
  unfold _sign
  simp only [ho, hq, Bool.true_eq_false, if_false, Bool.false_eq_true]
  rcases hstat : (messages s (transfers s tid).message_id).status with
    _ | _ | _ | _ | _ | _ | _ | _ | _ | _ | _
  case Confirmed =>
    refine ⟨s, ?_, rfl, rfl, fun hne => absurd rfl hne⟩
    simp [hstat]
  all_goals {
    exact ⟨updateStatusFn (transfers s tid).message_id Status.Pending (transfers s tid).kind s,
      by simp [hstat, update_status],
      updateStatusFn_bridgeTransfers _ _ _ _,
      updateStatusFn_sideOf _ _ _ _,
      fun _ => rfl⟩
  }

/-- Case analysis for the sequencing operator. -/
theorem Res.andThen_eq_ok {r : Res} {f : State → Res} {s' : State}
    (h : Res.andThen r f = Res.Ok s') : ∃ s1, r = Res.Ok s1 ∧ f s1 = Res.Ok s' := by
  cases r with
  | Ok s1 => exact ⟨s1, rfl, h⟩
  | Err e s1 => simp [Res.andThen] at h

/-- Case analysis for the sequencing operator, error form. -/
theorem Res.andThen_eq_err {r : Res} {f : State → Res} {e : String} {s' : State}
    (h : Res.andThen r f = Res.Err e s') :
    r = Res.Err e s' ∨ ∃ s1, r = Res.Ok s1 ∧ f s1 = Res.Err e s' := by
  cases r with
  | Ok s1 => exact Or.inr ⟨s1, rfl, h⟩
  | Err e1 s1 => simp [Res.andThen] at h; exact Or.inl (by rw [h.1, h.2])

/-- When an open proposal reaches quorum, a successful `_sign` call persists
the proposal closed with the incremented vote count. -/
theorem sign_open_quorum_ok (s : State) (tid : ProposalId)
    (ho : (transfers s tid).isOpen = true)
    (hq : votes_are_enough_in s ((transfers s tid).votes + 1) = true) :
    ∀ s', _sign tid s = Res.Ok s' →
      transfers s' tid = { transfers s tid with votes := (transfers s tid).votes + 1, isOpen := false } := by
  intro s' hs'
  unfold _sign at hs'
  simp only [ho, hq, Bool.true_eq_false, if_false, if_true] at hs'
  obtain ⟨s1, hE, hf⟩ := Res.andThen_eq_ok hs'
  simp only [Res.Ok.injEq] at hf
  subst hf
  simp [transfers]

/-- Reading the just-written proposal out of an updated proposal store. -/
@[simp] theorem transfers_mapInsert_self (s1 : State)
    (f : ProposalId → Option BridgeTransfer) (tid : ProposalId) (t : BridgeTransfer) :
    transfers { s1 with bridgeTransfers := mapInsert f tid t } tid = t := by
  simp [transfers]

/-! ## Claim C1 -/

/-- Claim C1 (amended): for an open proposal, a `_sign` vote that does not
reach quorum (`votes / live count < 0.51` in the floating-point model)
succeeds and leaves the proposal open with the vote recorded; and every
*successful* `_sign` call records the vote and finalizes (sets `open =
false`) exactly when the incremented vote count reaches quorum against the
live validator count.  (The unamended claim additionally asserted that
reaching quorum always finalizes; `C1_quorum_counterexample` refutes that:
when the dispatched side effect is rejected the call errors and the
proposal stays open.) -/
theorem C1_quorum_amended (s : State) (tid : ProposalId)
    (ho : (transfers s tid).isOpen = true) :
    (votes_are_enough_in s ((transfers s tid).votes + 1) = false →
      ∃ s', _sign tid s = Res.Ok s' ∧ (transfers s' tid).isOpen = true ∧
        (transfers s' tid).votes = (transfers s tid).votes + 1) ∧
    (∀ s', _sign tid s = Res.Ok s' →
      (transfers s' tid).votes = (transfers s tid).votes + 1 ∧
      ((transfers s' tid).isOpen = false ↔
        votes_are_enough_in s ((transfers s tid).votes + 1) = true)) := by
  constructor
  · intro hq
    obtain ⟨s1, heq, -, -, -⟩ := sign_open_no_quorum s tid ho hq
    refine ⟨_, heq, ?_, ?_⟩
    · rw [transfers_mapInsert_self]
      exact ho
    · rw [transfers_mapInsert_self]
  · intro s' hs'
    by_cases hq : votes_are_enough_in s ((transfers s tid).votes + 1) = true
    · have h := sign_open_quorum_ok s tid ho hq s' hs'
      rw [h]
      simp [hq]
    · rw [Bool.not_eq_true] at hq
      obtain ⟨s1, heq, -, -, -⟩ := sign_open_no_quorum s tid ho hq
      rw [heq] at hs'
      simp only [Res.Ok.injEq] at hs'
      subst hs'
      rw [transfers_mapInsert_self]
      exact ⟨rfl, by simp [ho, hq]⟩

/-! Reachable counterexample trace for C1 and C5: starting from the genesis
of three validators, validators are voted out via `remove_validator` down to
a single one (the trajectory of the repository test
`remove_last_validator_should_fail`, bridge.rs:816-832), leaving an open
remove-validator proposal for account 1. -/

def rmTrace1 : State := (remove_validator 2 3 genesis).state
def rmTrace2 : State := (remove_validator 1 3 rmTrace1).state
def rmTrace3 : State := (remove_validator 1 2 rmTrace2).state
def rmTrace4 : State := (remove_validator 1 1 rmTrace3).state
def rmTrace5 : State := (remove_validator 2 2 rmTrace4).state

/-- Claim C1, counterexample to the unamended statement: in the reachable
state `rmTrace5` (validator count 1, proposal 2 = remove-validator for
account 1, open, one vote), the next vote reaches quorum
(`2/1 ≥ 0.51`) but the call is rejected by the last-validator guard of the
dispatched side effect, the proposal stays open and the vote is not even
recorded — so "finalizes if quorum" fails on the code. -/
theorem C1_quorum_counterexample :
    (remove_validator 2 3 genesis).isOk = true ∧
    (remove_validator 1 3 rmTrace1).isOk = true ∧
    (remove_validator 1 2 rmTrace2).isOk = true ∧
    (remove_validator 1 1 rmTrace3).isOk = true ∧
    (remove_validator 2 2 rmTrace4).isOk = true ∧
    (transfers rmTrace5 2).isOpen = true ∧
    (transfers rmTrace5 2).votes = 1 ∧
    rmTrace5.validatorsCount = 1 ∧
    votes_are_enough_in rmTrace5 ((transfers rmTrace5 2).votes + 1) = true ∧
    (_sign 2 rmTrace5).errMsg = some lastValidatorErr ∧
    (transfers ((_sign 2 rmTrace5).state) 2).isOpen = true ∧
    (transfers ((_sign 2 rmTrace5).state) 2).votes = 1 := by
  decide

/-- Witness for `C1_quorum_amended` at a concrete input: the open deposit
proposal created by a first `multi_signed_mint` vote at genesis. -/
def c1wState : State := (multi_signed_mint 2 (HashV.raw 5) 20 7 1000 genesis).state

theorem C1_quorum_amended_witness :
    (transfers c1wState 0).isOpen = true ∧
    ((votes_are_enough_in c1wState ((transfers c1wState 0).votes + 1) = false →
      ∃ s', _sign 0 c1wState = Res.Ok s' ∧ (transfers s' 0).isOpen = true ∧
        (transfers s' 0).votes = (transfers c1wState 0).votes + 1) ∧
    (∀ s', _sign 0 c1wState = Res.Ok s' →
      (transfers s' 0).votes = (transfers c1wState 0).votes + 1 ∧
      ((transfers s' 0).isOpen = false ↔
        votes_are_enough_in c1wState ((transfers c1wState 0).votes + 1) = true))) :=
  ⟨by decide, C1_quorum_amended c1wState 0 (by decide)⟩

/-! ## Claim C2 -/

/-- Claim C2: a vote on a proposal whose `open` flag is false is rejected by
the voting entry `_sign` with the not-open error, and the state — vote
counter, message statuses, validator registry and operational gate — is left
exactly as it was; the same holds for the `approve_transfer` path into
`_sign`, which performs no writes before the vote. -/
theorem C2_not_open_rejected (s : State) (tid : ProposalId) (mid : HashV)
    (v : AccountId)
    (hclosed : (transfers s tid).isOpen = false)
    (hmid : transfer_id_by_hash s mid = tid)
    (hgate : s.bridgeIsOperational = true)
    (hv : v ∈ s.validators) :
    _sign tid s = Res.Err notOpenErr s ∧
    approve_transfer v mid s = Res.Err notOpenErr s := by
  refine ⟨sign_of_closed s tid hclosed, ?_⟩
  unfold approve_transfer check_validator
  simp [hgate, hv, hmid, sign_of_closed s tid hclosed]

/-- Witness for `C2_not_open_rejected`: at genesis every proposal slot is the
storage default, which is closed. -/
theorem C2_not_open_rejected_witness :
    (transfers genesis 0).isOpen = false ∧
    transfer_id_by_hash genesis (HashV.raw 3) = 0 ∧
    genesis.bridgeIsOperational = true ∧
    1 ∈ genesis.validators ∧
    (_sign 0 genesis = Res.Err notOpenErr genesis ∧
      approve_transfer 1 (HashV.raw 3) genesis = Res.Err notOpenErr genesis) :=
  ⟨by decide, by decide, by decide, by decide,
    C2_not_open_rejected genesis 0 (HashV.raw 3) 1 (by decide) (by decide)
      (by decide) (by decide)⟩

/-! ## Claim C4 -/

/-- Claim C4: `reopen_for_burn_confirmation` never fails and re-opens the
proposal indexed by the message hash — resetting `votes` to 0 and setting
`open` to true — exactly when the proposal is closed and the message status
equals `Confirmed`; otherwise it changes nothing.  Moreover the
`confirm_transfer` status write (`update_status … Confirmed`) indeed makes
that message's status `Confirmed` and does not touch the proposal store or
the hash-to-id index, so after `confirm_transfer` sets the status while the
proposal is closed, the guard holds and the proposal is re-opened. -/
theorem C4_reopen_characterization (s : State) (mid : HashV) :
    (reopen_for_burn_confirmation mid s =
      if (transfers s (transfer_id_by_hash s mid)).isOpen = false ∧
          (messages s mid).status = Status.Confirmed then
        Res.Ok { s with bridgeTransfers := mapInsert s.bridgeTransfers (transfer_id_by_hash s mid) ({ transfers s (transfer_id_by_hash s mid) with votes := 0, isOpen := true }) }
      else Res.Ok s) ∧
    (messages (updateStatusFn mid Status.Confirmed Kind.Transfer s) mid).status
      = Status.Confirmed ∧
    (updateStatusFn mid Status.Confirmed Kind.Transfer s).bridgeTransfers
      = s.bridgeTransfers ∧
    (updateStatusFn mid Status.Confirmed Kind.Transfer s).transferIdMap
      = s.transferIdMap := by
  refine ⟨?_, ?_, rfl, rfl⟩
  · unfold reopen_for_burn_confirmation
    rfl
  · simp [updateStatusFn, messages]

/-! ## Claim C7 -/

/-- The genesis state with the 32-bit proposal id counter at `u32::MAX`,
where `checked_add(1)` fails. -/
def overflowState : State := { genesis with bridgeTransfersCount := 4294967295 }

/-- Claim C7 (code bug): when the proposal id counter would overflow,
`multi_signed_mint` returns the overflow error but the transfer message it
inserted *before* calling `create_transfer` (bridge.rs:105-106) remains in
the `TransferMessages` store — the function leaves a partial state change
behind on error, contradicting the claimed atomicity.  (No proposal is
created and the counter is unchanged.) -/
theorem C7_overflow_partial_state :
    overflowState.transferMessages (HashV.raw 9) = none ∧
    (multi_signed_mint 2 (HashV.raw 9) 20 7 1000 overflowState).errMsg
      = some overflowErr ∧
    ((multi_signed_mint 2 (HashV.raw 9) 20 7 1000 overflowState).state).transferMessages (HashV.raw 9)
      = some { message_id := HashV.raw 9, eth_address := 20, substrate_address := 7, amount := 1000, status := Status.Deposit, action := Status.Deposit } ∧
    ((multi_signed_mint 2 (HashV.raw 9) 20 7 1000 overflowState).state).transferIdMap (HashV.raw 9)
      = none ∧
    ((multi_signed_mint 2 (HashV.raw 9) 20 7 1000 overflowState).state).bridgeTransfersCount
      = 4294967295 := by
  decide

/-! ## Claim C5 -/

/-- Claim C5, counterexample: on the reachable trace `rmTrace1-5` from the
3-validator genesis (the repository's own `remove_last_validator_should_fail`
trajectory), the deciding vote on the remove-validator proposal for account 2
arrives while the registry count equals 2; the claim says it must be rejected
with the last-validator error leaving the registry unchanged, but the call
succeeds: the guard is `count > 1`, so account 2 is removed and the count
drops to 1. -/
theorem C5_remove_at_two_counterexample :
    rmTrace4.validatorsCount = 2 ∧
    (2 ∈ rmTrace4.validators) ∧
    (transfers rmTrace4 1).isOpen = true ∧
    (transfers rmTrace4 1).votes = 1 ∧
    votes_are_enough_in rmTrace4 ((transfers rmTrace4 1).votes + 1) = true ∧
    (remove_validator 2 2 rmTrace4).isOk = true ∧
    rmTrace5.validatorsCount = 1 ∧
    (2 ∉ rmTrace5.validators) := by
  decide

/-- Claim C5 (amended): a remove-validator proposal whose vote reaches
quorum at a moment when the registry count equals 1 is rejected with the
last-validator error and the whole state — in particular the trusted set and
the count — is unchanged; at count 2 the removal succeeds (see the
counterexample). -/
theorem C5_last_validator_amended (s : State) (tid : ProposalId)
    (ho : (transfers s tid).isOpen = true)
    (hk : (transfers s tid).kind = Kind.Validator)
    (hm : s.transferMessages (transfers s tid).message_id = none)
    (ha : (validator_history s (transfers s tid).message_id).action
            = Status.RemoveValidator)
    (hc : s.validatorsCount = 1)
    (hq : votes_are_enough_in s ((transfers s tid).votes + 1) = true) :
    _sign tid s = Res.Err lastValidatorErr s := by
  unfold _sign
  simp only [ho, hq, Bool.true_eq_false, if_false, if_true, hk]
  have hmsg : (messages s (transfers s tid).message_id).status = Status.Revoked := by
    simp [messages, hm, defaultTransferMessage]
  unfold signAdjust
  rw [hmsg]
  dsimp only
  unfold manage_validator
  rw [ha]
  dsimp only
  unfold _remove_validator
  simp [hc]

/-- Witness state for `C5_last_validator_amended`: a single remaining
validator and an open remove-validator proposal. -/
def c5wState : State := { genesis with
  validatorsCount := 1,
  validators := {1},
  validatorHistoryMap := mapInsert (fun _ => none) (HashV.removeH 1)
    { message_id := HashV.removeH 1, account := 1,
      action := Status.RemoveValidator, status := Status.Pending },
  bridgeTransfers := mapInsert (fun _ => none) 0
    { transfer_id := 0, message_id := HashV.removeH 1, isOpen := true,
      votes := 0, kind := Kind.Validator },
  transferIdMap := mapInsert (fun _ => none) (HashV.removeH 1) 0,
  bridgeTransfersCount := 1 }

theorem C5_last_validator_amended_witness :
    (transfers c5wState 0).isOpen = true ∧
    (transfers c5wState 0).kind = Kind.Validator ∧
    c5wState.transferMessages (transfers c5wState 0).message_id = none ∧
    (validator_history c5wState (transfers c5wState 0).message_id).action
      = Status.RemoveValidator ∧
    c5wState.validatorsCount = 1 ∧
    votes_are_enough_in c5wState ((transfers c5wState 0).votes + 1) = true ∧
    _sign 0 c5wState = Res.Err lastValidatorErr c5wState :=
  ⟨by decide, by decide, by decide, by decide, by decide, by decide,
    C5_last_validator_amended c5wState 0 (by decide) (by decide) (by decide)
      (by decide) (by decide) (by decide)⟩

/-! ## Claim C6 -/

/-- Intermediate state for the C6 counterexample: one vote on an
add-validator proposal naming account 1, which is already trusted. -/
def c6State1 : State := (add_validator 2 1 genesis).state

/-- Claim C6, counterexample: finalizing an add-validator proposal that
names an account already in the trusted set (account 1, voted in by
validators 2 and 1 from the 3-validator genesis) increments the redundant
count without growing the set: afterwards `validatorsCount = 4` while the
set still has 3 members, so the claimed invariant `count = |set|` is not
preserved. -/
theorem C6_registry_invariant_counterexample :
    (add_validator 2 1 genesis).isOk = true ∧
    (add_validator 1 1 c6State1).isOk = true ∧
    ((add_validator 1 1 c6State1).state).validatorsCount = 4 ∧
    ((add_validator 1 1 c6State1).state).validators.card = 3 := by
  decide

/-- Claim C6 (amended): the registry invariant `count = |set|` together with
the bounds `1 ≤ count ≤ 100000` is preserved by a finalized add-validator
proposal naming an account **not yet** in the set and by a finalized
remove-validator proposal naming an account **currently** in the set (the
unamended claim also asserted preservation for duplicate adds and absent
removes, which the counterexample refutes). -/
theorem C6_registry_invariant_amended (s : State) (info : ValidatorMessage)
    (hcard : s.validatorsCount = s.validators.card)
    (hmax : s.validatorsCount ≤ 100000) :
    (info.account ∉ s.validators →
      ∀ s', _add_validator info s = Res.Ok s' →
        s'.validatorsCount = s'.validators.card ∧
        1 ≤ s'.validatorsCount ∧ s'.validatorsCount ≤ 100000) ∧
    (info.account ∈ s.validators →
      ∀ s', _remove_validator info s = Res.Ok s' →
        s'.validatorsCount = s'.validators.card ∧
        1 ≤ s'.validatorsCount ∧ s'.validatorsCount ≤ 100000) := by
  constructor
  · intro hmem s' hs'
    unfold _add_validator at hs'
    by_cases hlt : s.validatorsCount < 100000
    · simp only [hlt, if_true, update_status, Res.Ok.injEq] at hs'
      subst hs'
      refine ⟨?_, ?_, ?_⟩
      · have : ((updateStatusFn info.message_id Status.Confirmed Kind.Validator
            { s with validators := insert info.account s.validators,
                     validatorsCount := s.validatorsCount + 1 })).validatorsCount
            = s.validatorsCount + 1 := by rfl
        rw [this]
        have hv : ((updateStatusFn info.message_id Status.Confirmed Kind.Validator
            { s with validators := insert info.account s.validators,
                     validatorsCount := s.validatorsCount + 1 })).validators
            = insert info.account s.validators := by rfl
        rw [hv, Finset.card_insert_of_not_mem hmem, hcard]
      · exact Nat.le_add_left 1 _
      · exact Nat.succ_le_of_lt hlt
    · simp [hlt] at hs'
  · intro hmem s' hs'
    unfold _remove_validator at hs'
    by_cases hgt : 1 < s.validatorsCount
    · simp only [hgt, if_true, Res.Ok.injEq] at hs'
      subst hs'
      refine ⟨?_, ?_, ?_⟩
      · show s.validatorsCount - 1 = (s.validators.erase info.account).card
        rw [Finset.card_erase_of_mem hmem, hcard]
      · show 1 ≤ s.validatorsCount - 1
        omega
      · show s.validatorsCount - 1 ≤ 100000
        omega
    · simp [hgt] at hs'

/-- Witness for `C6_registry_invariant_amended` at genesis with an approved
add-validator message for the fresh account 4. -/
theorem C6_registry_invariant_amended_witness :
    genesis.validatorsCount = genesis.validators.card ∧
    genesis.validatorsCount ≤ 100000 ∧
    ((4 ∉ genesis.validators →
      ∀ s', _add_validator { message_id := HashV.addH 4, account := 4, action := Status.AddValidator, status := Status.Approved } genesis = Res.Ok s' →
        s'.validatorsCount = s'.validators.card ∧
        1 ≤ s'.validatorsCount ∧ s'.validatorsCount ≤ 100000) ∧
    (4 ∈ genesis.validators →
      ∀ s', _remove_validator { message_id := HashV.addH 4, account := 4, action := Status.AddValidator, status := Status.Approved } genesis = Res.Ok s' →
        s'.validatorsCount = s'.validators.card ∧
        1 ≤ s'.validatorsCount ∧ s'.validatorsCount ≤ 100000)) :=
  ⟨by decide, by decide,
    C6_registry_invariant_amended genesis
      { message_id := HashV.addH 4, account := 4,
        action := Status.AddValidator, status := Status.Approved }
      (by decide) (by decide)⟩

/-! ## Claim C3 -/

/-- Under the ledger invariant `locked ≤ free`, a failing `execute_transfer`
performs no writes: each rejection happens before any storage or ledger
mutation (the burn path's `_burn` cannot fail after a successful `unlock`
because the unlocked amount is covered by the free balance). -/
theorem execute_transfer_err_state (m : TransferMessage) (s : State)
    (hInv : ∀ a, s.token.locked a ≤ s.token.free a) :
    ∀ e s', execute_transfer m s = Res.Err e s' → s' = s := by
  intro e s' h
  unfold execute_transfer at h
  split at h
  · -- Deposit
    split at h
    · simp [token._mint, update_status, Res.andThen] at h
    · simp only [Res.Err.injEq] at h
      exact h.2.symm
  · -- Withdraw
    split at h
    · -- Confirmed: execute_burn
      unfold execute_burn token.unlock at h
      dsimp only at h
      split at h
      case isTrue hle =>
        simp only [Res.andThen_Ok] at h
        unfold token._burn at h
        split at h
        · simp at h
        case isFalse hnot =>
          exact absurd (le_trans hle (hInv _)) hnot
      · simp only [Res.andThen_Err, Res.Err.injEq] at h
        exact h.2.symm
    · -- Approved: lock then status write
      unfold lock_for_burn token.lock at h
      split at h
      · simp [update_status, Res.andThen] at h
      · simp only [Res.andThen_Err, Res.Err.injEq] at h
        exact h.2.symm
    · simp only [Res.Err.injEq] at h
      exact h.2.symm
  · simp only [Res.Err.injEq] at h
    exact h.2.symm

/-- A failing `manage_validator` performs no writes. -/
theorem manage_validator_err_state (m : ValidatorMessage) (s : State) :
    ∀ e s', manage_validator m s = Res.Err e s' → s' = s := by
  intro e s' h
  unfold manage_validator at h
  split at h
  · split at h
    · unfold _add_validator at h
      split at h
      · simp [update_status] at h
      · simp only [Res.Err.injEq] at h
        exact h.2.symm
    · simp only [Res.Err.injEq] at h
      exact h.2.symm
  · split at h
    · unfold _remove_validator at h
      split at h
      · simp at h
      · simp only [Res.Err.injEq] at h
        exact h.2.symm
    · simp only [Res.Err.injEq] at h
      exact h.2.symm
  · simp only [Res.Err.injEq] at h
    exact h.2.symm

/-- A failing `manage_bridge` performs no writes. -/
theorem manage_bridge_err_state (m : BridgeMessage) (s : State) :
    ∀ e s', manage_bridge m s = Res.Err e s' → s' = s := by
  intro e s' h
  unfold manage_bridge at h
  split at h
  · split at h
    · simp [pause_the_bridge, update_status] at h
    · simp only [Res.Err.injEq] at h
      exact h.2.symm
  · split at h
    · simp [resume_the_bridge, update_status] at h
    · simp only [Res.Err.injEq] at h
      exact h.2.symm
  · simp only [Res.Err.injEq] at h
    exact h.2.symm

/-- A failing quorum dispatch performs no writes. -/
theorem sign_dispatch_err_state (k : Kind) (mm : TransferMessage)
    (vm : ValidatorMessage) (bm : BridgeMessage) (s : State)
    (hInv : ∀ a, s.token.locked a ≤ s.token.free a) :
    ∀ e s', (match k with
      | Kind.Transfer => execute_transfer mm s
      | Kind.Validator => manage_validator vm s
      | Kind.Bridge => manage_bridge bm s) = Res.Err e s' → s' = s := by
  cases k with
  | Transfer => exact execute_transfer_err_state mm s hInv
  | Validator => exact manage_validator_err_state vm s
  | Bridge => exact manage_bridge_err_state bm s

/-- Claim C3: in a `_sign` call the side-effect components (token ledger,
validator registry, operational gate) change only when the call closes the
proposal — i.e. exactly at the transition of `open` from true to false,
which a successful call performs if and only if the incremented vote count
reaches quorum; a failing call leaves the whole state unchanged (under the
ledger invariant `locked ≤ free`).  Since `_sign` is the only voting path
and a closed proposal rejects further votes until a re-open, the proposal's
side effect is dispatched at most once per open-close cycle. -/
theorem C3_effects_only_at_close (s : State) (tid : ProposalId)
    (hInv : ∀ a, s.token.locked a ≤ s.token.free a) :
    (∀ e s', _sign tid s = Res.Err e s' → s' = s) ∧
    (∀ s', _sign tid s = Res.Ok s' → sideOf s' ≠ sideOf s →
        (transfers s tid).isOpen = true ∧ (transfers s' tid).isOpen = false) ∧
    (∀ s', _sign tid s = Res.Ok s' →
        (((transfers s tid).isOpen = true ∧ (transfers s' tid).isOpen = false) ↔
          votes_are_enough_in s ((transfers s tid).votes + 1) = true)) := by
  by_cases ho : (transfers s tid).isOpen = true
  · by_cases hq : votes_are_enough_in s ((transfers s tid).votes + 1) = true
    · refine ⟨?_, ?_, ?_⟩
      · intro e s' h
        unfold _sign at h
        simp only [ho, hq, Bool.true_eq_false, if_false, if_true] at h
        rcases Res.andThen_eq_err h with hE | ⟨s1, hE, hf⟩
        · exact sign_dispatch_err_state _ _ _ _ s hInv e s' hE
        · simp at hf
      · intro s' hOk _
        refine ⟨ho, ?_⟩
        rw [sign_open_quorum_ok s tid ho hq s' hOk]
      · intro s' hOk
        rw [sign_open_quorum_ok s tid ho hq s' hOk]
        simp [ho, hq]
    · rw [Bool.not_eq_true] at hq
      obtain ⟨s1, heq, hbt, hside, hupd⟩ := sign_open_no_quorum s tid ho hq
      refine ⟨?_, ?_, ?_⟩
      · intro e s' h
        rw [heq] at h
        simp at h
      · intro s' hOk hside2
        rw [heq] at hOk
        simp only [Res.Ok.injEq] at hOk
        subst hOk
        exact absurd hside hside2
      · intro s' hOk
        rw [heq] at hOk
        simp only [Res.Ok.injEq] at hOk
        subst hOk
        rw [transfers_mapInsert_self]
        simp [ho, hq]
  · rw [Bool.not_eq_true] at ho
    have hE := sign_of_closed s tid ho
    refine ⟨?_, ?_, ?_⟩
    · intro e s' h
      rw [hE] at h
      simp only [Res.Err.injEq] at h
      exact h.2.symm
    · intro s' h _
      rw [hE] at h
      simp at h
    · intro s' h
      rw [hE] at h
      simp at h

/-- Witness for `C3_effects_only_at_close` at genesis (empty ledger, default
closed proposal 0). -/
theorem C3_effects_only_at_close_witness :
    (∀ a, genesis.token.locked a ≤ genesis.token.free a) ∧
    ((∀ e s', _sign 0 genesis = Res.Err e s' → s' = genesis) ∧
    (∀ s', _sign 0 genesis = Res.Ok s' → sideOf s' ≠ sideOf genesis →
        (transfers genesis 0).isOpen = true ∧ (transfers s' 0).isOpen = false) ∧
    (∀ s', _sign 0 genesis = Res.Ok s' →
        (((transfers genesis 0).isOpen = true ∧ (transfers s' 0).isOpen = false) ↔
          votes_are_enough_in genesis ((transfers genesis 0).votes + 1) = true))) :=
  ⟨fun _ => Nat.le_refl 0,
    C3_effects_only_at_close genesis 0 (fun _ => Nat.le_refl 0)⟩

/-! ## Claim C8 -/

/-- A call result is not a rejection by the operational-gate check. -/
def NoGate (r : Res) : Prop := r.errMsg ≠ some gateErr

theorem noGate_Ok (s : State) : NoGate (Res.Ok s) := by
  simp [NoGate]

theorem noGate_Err (e : String) (s : State) (h : e ≠ gateErr) :
    NoGate (Res.Err e s) := by
  simp [NoGate, h]

theorem noGate_andThen {r : Res} {f : State → Res}
    (h1 : NoGate r) (h2 : ∀ s, NoGate (f s)) : NoGate (Res.andThen r f) := by
  cases r with
  | Ok s => exact h2 s
  | Err e s => exact h1

theorem noGate_check_validator (v : AccountId) (s : State) :
    NoGate (check_validator v s) := by
  unfold check_validator
  split
  · exact noGate_Ok _
  · exact noGate_Err _ _ (by decide)

theorem noGate_update_status (id : HashV) (st : Status) (k : Kind) (s : State) :
    NoGate (update_status id st k s) :=
  noGate_Ok _

theorem noGate_lock (a : AccountId) (amt : TokenBalance) (s : State) :
    NoGate (token.lock a amt s) := by
  unfold token.lock
  split
  · exact noGate_Ok _
  · exact noGate_Err _ _ (by decide)

theorem noGate_unlock (a : AccountId) (amt : TokenBalance) (s : State) :
    NoGate (token.unlock a amt s) := by
  unfold token.unlock
  split
  · exact noGate_Ok _
  · exact noGate_Err _ _ (by decide)

theorem noGate_mint (a : AccountId) (amt : TokenBalance) (s : State) :
    NoGate (token._mint a amt s) :=
  noGate_Ok _

theorem noGate_burn (a : AccountId) (amt : TokenBalance) (s : State) :
    NoGate (token._burn a amt s) := by
  unfold token._burn
  split
  · exact noGate_Ok _
  · exact noGate_Err _ _ (by decide)

theorem noGate_execute_burn (mid : HashV) (s : State) :
    NoGate (execute_burn mid s) := by
  unfold execute_burn
  exact noGate_andThen (noGate_unlock _ _ _) fun s1 => noGate_burn _ _ _

theorem noGate_execute_transfer (m : TransferMessage) (s : State) :
    NoGate (execute_transfer m s) := by
  unfold execute_transfer
  split
  · split
    · exact noGate_andThen (noGate_mint _ _ _) fun s1 => noGate_update_status _ _ _ _
    · exact noGate_Err _ _ (by decide)
  · split
    · exact noGate_execute_burn _ _
    · exact noGate_andThen (noGate_lock _ _ _) fun s1 => noGate_update_status _ _ _ _
    · exact noGate_Err _ _ (by decide)
  · exact noGate_Err _ _ (by decide)

theorem noGate_manage_validator (m : ValidatorMessage) (s : State) :
    NoGate (manage_validator m s) := by
  unfold manage_validator _add_validator _remove_validator
  split
  · split
    · split
      · exact noGate_update_status _ _ _ _
      · exact noGate_Err _ _ (by decide)
    · exact noGate_Err _ _ (by decide)
  · split
    · split
      · exact noGate_Ok _
      · exact noGate_Err _ _ (by decide)
    · exact noGate_Err _ _ (by decide)
  · exact noGate_Err _ _ (by decide)

theorem noGate_manage_bridge (m : BridgeMessage) (s : State) :
    NoGate (manage_bridge m s) := by
  unfold manage_bridge pause_the_bridge resume_the_bridge
  split
  · split
    · exact noGate_update_status _ _ _ _
    · exact noGate_Err _ _ (by decide)
  · split
    · exact noGate_update_status _ _ _ _
    · exact noGate_Err _ _ (by decide)
  · exact noGate_Err _ _ (by decide)

theorem noGate_sign (tid : ProposalId) (s : State) : NoGate (_sign tid s) := by
  unfold _sign
  dsimp only
  split
  · exact noGate_Err _ _ (by decide)
  · split
    · apply noGate_andThen
      · split
        · exact noGate_execute_transfer _ _
        · exact noGate_manage_validator _ _
        · exact noGate_manage_bridge _ _
      · intro s1
        exact noGate_Ok _
    · apply noGate_andThen
      · split
        · exact noGate_Ok _
        · exact noGate_update_status _ _ _ _
      · intro s1
        exact noGate_Ok _

theorem noGate_create_transfer (h : HashV) (k : Kind) (s : State) :
    NoGate (create_transfer h k s) := by
  unfold create_transfer
  split
  · exact noGate_Err _ _ (by decide)
  · split
    · exact noGate_Err _ _ (by decide)
    · exact noGate_Ok _

theorem noGate_get_transfer_id_checked (h : HashV) (k : Kind) (s : State) :
    NoGate (get_transfer_id_checked h k s) := by
  unfold get_transfer_id_checked
  split
  · exact noGate_Ok _
  · exact noGate_create_transfer _ _ _

theorem noGate_resume_bridge (v : AccountId) (s : State) :
    NoGate (resume_bridge v s) := by
  unfold resume_bridge
  apply noGate_andThen (noGate_check_validator _ _)
  intro s1
  apply noGate_andThen
  · split
    · exact noGate_Ok _
    · exact noGate_get_transfer_id_checked _ _ _
  · intro s2
    exact noGate_sign _ _

theorem noGate_pause_bridge (v : AccountId) (s : State) :
    NoGate (pause_bridge v s) := by
  unfold pause_bridge
  apply noGate_andThen (noGate_check_validator _ _)
  intro s1
  split
  · exact noGate_Err _ _ (by decide)
  · apply noGate_andThen
    · split
      · exact noGate_Ok _
      · exact noGate_get_transfer_id_checked _ _ _
    · intro s2
      exact noGate_sign _ _

/-- Claim C8: when the operational gate is closed, the seven gated entry
points (`set_transfer`, `multi_signed_mint`, `approve_transfer`,
`add_validator`, `remove_validator`, `confirm_transfer`, `cancel_transfer`)
are all rejected with the gate error before any write; `pause_bridge` and
`resume_bridge` are exempt from that gate check — a second pause while the
gate is already closed is rejected only by the distinct already-paused
error, and neither pause nor resume ever returns the gate error. -/
theorem C8_gate_exemption (s : State) (v acc origin : AccountId) (mid : HashV)
    (eth : H160) (amt : TokenBalance)
    (hgate : s.bridgeIsOperational = false) :
    set_transfer origin eth amt s = Res.Err gateErr s ∧
    multi_signed_mint v mid eth acc amt s = Res.Err gateErr s ∧
    approve_transfer v mid s = Res.Err gateErr s ∧
    add_validator v acc s = Res.Err gateErr s ∧
    remove_validator v acc s = Res.Err gateErr s ∧
    confirm_transfer v mid s = Res.Err gateErr s ∧
    cancel_transfer v mid s = Res.Err gateErr s ∧
    (v ∈ s.validators → pause_bridge v s = Res.Err gateAlreadyErr s) ∧
    NoGate (pause_bridge v s) ∧
    NoGate (resume_bridge v s) := by
  refine ⟨?_, ?_, ?_, ?_, ?_, ?_, ?_, ?_, noGate_pause_bridge v s, noGate_resume_bridge v s⟩
  · unfold set_transfer
    simp [hgate]
  · unfold multi_signed_mint
    simp [hgate]
  · unfold approve_transfer
    simp [hgate]
  · unfold add_validator
    simp [hgate]
  · unfold remove_validator
    simp [hgate]
  · unfold confirm_transfer
    simp [hgate]
  · unfold cancel_transfer
    simp [hgate]
  · intro hv
    unfold pause_bridge check_validator
    simp [hgate, hv]

/-- Paused genesis for the C8 witness. -/
def pausedGenesis : State := { genesis with bridgeIsOperational := false }

theorem C8_gate_exemption_witness :
    pausedGenesis.bridgeIsOperational = false ∧
    (set_transfer 7 20 100 pausedGenesis = Res.Err gateErr pausedGenesis ∧
    multi_signed_mint 1 (HashV.raw 5) 20 4 100 pausedGenesis = Res.Err gateErr pausedGenesis ∧
    approve_transfer 1 (HashV.raw 5) pausedGenesis = Res.Err gateErr pausedGenesis ∧
    add_validator 1 4 pausedGenesis = Res.Err gateErr pausedGenesis ∧
    remove_validator 1 4 pausedGenesis = Res.Err gateErr pausedGenesis ∧
    confirm_transfer 1 (HashV.raw 5) pausedGenesis = Res.Err gateErr pausedGenesis ∧
    cancel_transfer 1 (HashV.raw 5) pausedGenesis = Res.Err gateErr pausedGenesis ∧
    (1 ∈ pausedGenesis.validators → pause_bridge 1 pausedGenesis = Res.Err gateAlreadyErr pausedGenesis) ∧
    NoGate (pause_bridge 1 pausedGenesis) ∧
    NoGate (resume_bridge 1 pausedGenesis)) :=
  ⟨rfl, C8_gate_exemption pausedGenesis 1 4 7 (HashV.raw 5) 20 100 rfl⟩

/-! ## Claim C9 -/

/-- The withdrawal hash of the C9 counterexample trace. -/
def c9Hash : HashV := HashV.setTransferH 7 20 0

/-- State after account 7 submits a withdrawal of 0 at genesis. -/
def c9State1 : State := (set_transfer 7 20 0 genesis).state

/-- State after validator 1 unilaterally cancels that withdrawal. -/
def c9State2 : State := (cancel_transfer 1 c9Hash c9State1).state

/-- Claim C9, counterexample to terminality: after a successful
`cancel_transfer` sets the message to `Canceled`, a single further
`approve_transfer` vote on the still-open proposal succeeds and overwrites
the status to `Pending` — the cancelled message is not terminal. -/
theorem C9_cancel_counterexample :
    (set_transfer 7 20 0 genesis).isOk = true ∧
    (cancel_transfer 1 c9Hash c9State1).isOk = true ∧
    (messages c9State2 c9Hash).status = Status.Canceled ∧
    (transfers c9State2 (transfer_id_by_hash c9State2 c9Hash)).isOpen = true ∧
    (approve_transfer 2 c9Hash c9State2).isOk = true ∧
    (messages ((approve_transfer 2 c9Hash c9State2).state) c9Hash).status
      = Status.Pending := by
  decide

/-- Claim C9 (amended): a single validator's `cancel_transfer` call — with
no quorum involved — sets the message status to `Canceled` and moves the
encumbered amount from locked back to available (free balances untouched,
proposals untouched), provided the locked balance covers the amount; but
the cancelled message is *not* terminal: a subsequent non-quorum vote on
the still-open proposal overwrites its status to `Pending` (second
conjunct). -/
theorem C9_cancel_amended (s : State) (v : AccountId) (mid : HashV)
    (tid : ProposalId)
    (hgate : s.bridgeIsOperational = true)
    (hv : v ∈ s.validators)
    (hlock : (messages s mid).amount
      ≤ s.token.locked (messages s mid).substrate_address) :
    (∃ s', cancel_transfer v mid s = Res.Ok s' ∧
      (messages s' mid).status = Status.Canceled ∧
      s'.token.locked (messages s mid).substrate_address
        = s.token.locked (messages s mid).substrate_address - (messages s mid).amount ∧
      s'.token.free = s.token.free ∧
      s'.bridgeTransfers = s.bridgeTransfers) ∧
    ((transfers s tid).isOpen = true → (transfers s tid).kind = Kind.Transfer →
      votes_are_enough_in s ((transfers s tid).votes + 1) = false →
      (messages s (transfers s tid).message_id).status ≠ Status.Confirmed →
      ∃ s', _sign tid s = Res.Ok s' ∧
        (messages s' (transfers s tid).message_id).status = Status.Pending) := by
  constructor
  · unfold cancel_transfer check_validator token.unlock
    simp only [hgate, Bool.true_eq_false, if_false, hv, ite_true, if_true,
      Res.andThen_Ok]
    split
    case isFalse hn => exact absurd hlock hn
    case isTrue hy =>
      simp only [Res.andThen_Ok]
      refine ⟨_, rfl, ?_, ?_, rfl, rfl⟩
      · simp [messages, mapInsert]
      · simp [updFun]
  · intro ho hk hq hnc
    obtain ⟨s1, heq, hbt, hside, hupd⟩ := sign_open_no_quorum s tid ho hq
    refine ⟨_, heq, ?_⟩
    have h1 := hupd hnc
    subst h1
    rw [hk]
    simp [messages, updateStatusFn, mapInsert]

/-- Witness for `C9_cancel_amended` at genesis (message defaults have amount
0, so the locked-balance hypothesis holds trivially). -/
theorem C9_cancel_amended_witness :
    genesis.bridgeIsOperational = true ∧
    1 ∈ genesis.validators ∧
    (messages genesis (HashV.raw 4)).amount
      ≤ genesis.token.locked (messages genesis (HashV.raw 4)).substrate_address ∧
    ((∃ s', cancel_transfer 1 (HashV.raw 4) genesis = Res.Ok s' ∧
      (messages s' (HashV.raw 4)).status = Status.Canceled ∧
      s'.token.locked (messages genesis (HashV.raw 4)).substrate_address
        = genesis.token.locked (messages genesis (HashV.raw 4)).substrate_address
          - (messages genesis (HashV.raw 4)).amount ∧
      s'.token.free = genesis.token.free ∧
      s'.bridgeTransfers = genesis.bridgeTransfers) ∧
    ((transfers genesis 0).isOpen = true → (transfers genesis 0).kind = Kind.Transfer →
      votes_are_enough_in genesis ((transfers genesis 0).votes + 1) = false →
      (messages genesis (transfers genesis 0).message_id).status ≠ Status.Confirmed →
      ∃ s', _sign 0 genesis = Res.Ok s' ∧
        (messages s' (transfers genesis 0).message_id).status = Status.Pending)) :=
  ⟨by decide, by decide, by decide,
    C9_cancel_amended genesis 1 (HashV.raw 4) 0 (by decide) (by decide) (by decide)⟩

/-! ## Claim C10 -/

/-- A state with an open proposal 0 of Validator kind (a remove-validator
message) and a single validator, used to refute the parenthetical of C10:
the unindexed hash `raw 77` routes the vote to proposal 0, which is open,
yet the call fails (quorum is reached and the last-validator guard rejects
the dispatch). -/
def c10State : State := { genesis with
  validatorsCount := 1,
  validators := {1},
  validatorHistoryMap := mapInsert (fun _ => none) (HashV.removeH 9)
    { message_id := HashV.removeH 9, account := 9,
      action := Status.RemoveValidator, status := Status.Pending },
  bridgeTransfers := mapInsert (fun _ => none) 0
    { transfer_id := 0, message_id := HashV.removeH 9, isOpen := true,
      votes := 0, kind := Kind.Validator },
  transferIdMap := mapInsert (fun _ => none) (HashV.removeH 9) 0,
  bridgeTransfersCount := 1 }

/-- Claim C10, counterexample to "succeeding and incrementing proposal 0's
vote count whenever proposal 0 is open": with proposal 0 open and the hash
`raw 77` unindexed, `approve_transfer` routes to proposal 0 but fails (the
deciding vote dispatches the remove-validator action, which the
last-validator guard rejects), and proposal 0's vote count is not
incremented. -/
theorem C10_default_id_counterexample :
    c10State.transferIdMap (HashV.raw 77) = none ∧
    (transfers c10State 0).isOpen = true ∧
    (approve_transfer 1 (HashV.raw 77) c10State).isOk = false ∧
    (transfers ((approve_transfer 1 (HashV.raw 77) c10State).state) 0).votes = 0 := by
  decide

/-- Claim C10 (amended): when a message hash has no proposal indexed for it,
`approve_transfer` by a registered validator (gate open) does not fail with
any missing-proposal error — the hash-to-id lookup yields the default
proposal id 0 and the call is exactly a `_sign` vote on proposal 0; whenever
proposal 0 is open and the incremented count does not reach quorum, the
call succeeds and increments proposal 0's vote counter (on quorum it
finalizes proposal 0 or fails with the dispatched action's rejection, see
the counterexample). -/
theorem C10_default_id_amended (s : State) (v : AccountId) (h : HashV)
    (hnone : s.transferIdMap h = none)
    (hgate : s.bridgeIsOperational = true)
    (hv : v ∈ s.validators) :
    approve_transfer v h s = _sign 0 s ∧
    ((transfers s 0).isOpen = true →
      votes_are_enough_in s ((transfers s 0).votes + 1) = false →
      ∃ s', _sign 0 s = Res.Ok s' ∧ (transfers s' 0).votes = (transfers s 0).votes + 1 ∧
        (transfers s' 0).isOpen = true) := by
  constructor
  · unfold approve_transfer check_validator
    simp [hgate, hv, transfer_id_by_hash, hnone]
  · intro ho hq
    obtain ⟨s1, heq, -, -, -⟩ := sign_open_no_quorum s 0 ho hq
    refine ⟨_, heq, ?_, ?_⟩
    · rw [transfers_mapInsert_self]
    · rw [transfers_mapInsert_self]
      exact ho

/-- Witness for `C10_default_id_amended` at genesis. -/
theorem C10_default_id_amended_witness :
    genesis.transferIdMap (HashV.raw 77) = none ∧
    genesis.bridgeIsOperational = true ∧
    1 ∈ genesis.validators ∧
    (approve_transfer 1 (HashV.raw 77) genesis = _sign 0 genesis ∧
    ((transfers genesis 0).isOpen = true →
      votes_are_enough_in genesis ((transfers genesis 0).votes + 1) = false →
      ∃ s', _sign 0 genesis = Res.Ok s' ∧
        (transfers s' 0).votes = (transfers genesis 0).votes + 1 ∧
        (transfers s' 0).isOpen = true)) :=
  ⟨by decide, by decide, by decide,
    C10_default_id_amended genesis 1 (HashV.raw 77) (by decide) (by decide) (by decide)⟩
